import Mathlib

/-
Verification of the annotation-service CLI client
(plugins/docx-easy-comments/skills/docx-easy-comments/annotate.py).

The script is a straight-line program: parse command-line arguments,
validate the annotations JSON, read the input file, send one HTTP POST,
branch on the response, and either write the decoded output file or print
a structured error.  We embed it as a pure function from an environment
(file-system contents, the json.loads and base64.b64decode oracles, the
HTTP response the service returns this run) to a run result recording
how the process terminated, everything printed to standard output, the
content of the file left at the output path (if any), and the request
that was sent over the network (if any).

External library calls are modelled as oracles in the environment:
json.loads and base64.b64decode return an Option (none means the call
raised the exception the script catches at that site); requests.post is
an Option HttpResponse (none means requests.RequestException).  Python
exceptions that the script does NOT catch are modelled explicitly
(PyExc) and surface as a crashed termination.
-/

set_option autoImplicit false

/-- JSON values, as produced by json.loads.  Objects keep their fields as
an ordered list of pairs; lookup takes the last binding, matching how
json.loads builds a dict for duplicate keys. -/
inductive Json where
  | jnull : Json
  | jbool : Bool → Json
  | jnum : Int → Json
  | jstr : String → Json
  | jarr : List Json → Json
  | jobj : List (String × Json) → Json

/-- Dict lookup: the last binding of the key wins, as in a Python dict
built by json.loads from duplicate keys. -/
def jlookup (k : String) : List (String × Json) → Option Json
  | [] => none
  | (k0, v) :: rest =>
    match jlookup k rest with
    | some v2 => some v2
    | none => if k0 = k then some v else none

/-- Python dict.get with a default. -/
def jgetD (fs : List (String × Json)) (k : String) (d : Json) : Json :=
  (jlookup k fs).getD d

/-- isinstance(x, list) on a parsed JSON value. -/
def Json.isArr : Json → Bool
  | Json.jarr _ => true
  | _ => false

/-- Python exceptions the script does not catch on the paths where they
can occur (all exceptions it does catch are folded into the none branch
of the corresponding oracle). -/
inductive PyExc where
  | typeError : PyExc
  | attributeError : PyExc

/-- How the process ended: sys.exit with a code, or an uncaught
exception (interpreter traceback). -/
inductive Termination where
  | exited : Nat → Termination
  | crashed : PyExc → Termination

/-- One item printed to standard output: a JSON object (json.dumps) or
the plain-text usage message of --help. -/
inductive Output where
  | jsonOut : Json → Output
  | helpText : Output

/-- The HTTP response obtained from requests.post.  text is resp.text;
jsonBody is the result of resp.json(), none when that call raises
(body is not valid JSON). -/
structure HttpResponse where
  status : Nat
  text : String
  jsonBody : Option Json

/-- The multipart POST the script builds (lines 134-147 of the source):
url, the file part (filename, bytes, MIME type), the JSON request field
{author, initials, annotations}, the Accept header and the timeout. -/
structure HttpRequest where
  url : String
  fileName : String
  fileBytes : List Nat
  mime : String
  requestField : Json
  accept : String
  timeoutSecs : Nat

/-- The observable outcome of one run of the script.
outFile is the content of the file left at the output path: none when no
file was created there, some bs when the file holds bytes bs (some []
when open(out, wb) created or truncated it but nothing was written).
request records the HTTP POST that was attempted, if the script reached
requests.post. -/
structure RunResult where
  term : Termination
  printed : List Output
  outFile : Option (List Nat)
  request : Option HttpRequest

/-- The ambient world for one run: text files (for --json), binary files
(for the input document), the json.loads and base64.b64decode oracles,
os.path.abspath, the response of the single requests.post call (none =
requests.RequestException), and whether open(output, wb) succeeds. -/
structure Env where
  files : String → Option String
  binFiles : String → Option (List Nat)
  jloads : String → Option Json
  b64decode : String → Option (List Nat)
  abspath : String → String
  httpResult : Option HttpResponse
  openWriteOk : Bool

/- ── String constants of the script ─────────────────────────── -/

def jsonFlag : String := "--json"
def urlFlag : String := "--url"
def authorFlag : String := "--author"
def initialsFlag : String := "--initials"
def helpFlag : String := "--help"
def hFlag : String := "-h"
def defaultUrl : String := "https://comments-service.edumagick.com/"
def defaultAuthor : String := "AI Assistant"
def defaultInitials : String := "AI"
def apiPath : String := "/api/annotate"
def docxMime : String :=
  "application/vnd.openxmlformats-officedocument.wordprocessingml.document"
def acceptJsonHeader : String := "application/json"
def okKey : String := "ok"
def errorKey : String := "error"
def errorsKey : String := "errors"
def fileKey : String := "file"
def outputKey : String := "output"
def authorKey : String := "author"
def initialsKey : String := "initials"
def annotationsKey : String := "annotations"
def emptyStr : String := ""

/- Error messages.  Where the script interpolates the exception text
into the message, the model keeps the fixed prefix only. -/

def usageMsg : String :=
  "Usage: python3 annotate.py <input.docx> <output.docx> <json> [--json FILE] [--url URL] [--author NAME] [--initials XX]"
def cannotReadJsonMsg : String := "Cannot read JSON file"
def missingUrlMsg : String := "Missing value for --url"
def missingAuthorMsg : String := "Missing value for --author"
def missingInitialsMsg : String := "Missing value for --initials"
def invalidJsonMsg : String := "Invalid annotations JSON"
def readErrMsg : String := "Cannot read input file"
def unexpectedMsg : String := "Unexpected response from service"
def semFailMsg : String := "One or more annotations could not be applied."
def connectMsg (u : String) : String :=
  "Cannot connect to annotation service at " ++ u

/- ── Small helpers mirroring Python library calls ──────────── -/

def slashChar : Char := '/'

/-- service_url.rstrip of the slash character. -/
def rstripSlash (s : String) : String :=
  String.mk (List.reverse (List.dropWhile (fun c => c = slashChar) (List.reverse s.data)))

/-- os.path.basename for slash-separated paths. -/
def basename (s : String) : String :=
  (s.splitOn (String.mk [slashChar])).getLastD s

/-- resp.text truncated to its first 500 characters. -/
def truncate500 (s : String) : String := s.take 500

/- ── Argument parsing (the while loop, lines 52-105) ───────── -/

/-- The mutable locals of the argument-parsing loop. -/
structure ParseState where
  annotations_json : Option String
  service_url : String
  author : String
  initials : String
  positional : List String

/-- Initial values of the locals (lines 45-52). -/
def initState : ParseState :=
  { annotations_json := none
  , service_url := defaultUrl
  , author := defaultAuthor
  , initials := defaultInitials
  , positional := [] }

/-- How the parsing loop ends: normally, by bail (print error JSON and
exit 1), or by printing the help text and exiting 0. -/
inductive ParseResult where
  | ok : ParseState → ParseResult
  | bailed : String → ParseResult
  | helped : ParseResult

/-- The argument-parsing loop.  Each option consumes its value; --json
reads the file at once and bails when the name is missing or the file
cannot be read; --help prints usage and exits 0; everything else is
collected as a positional argument. -/
def parseArgs (env : Env) : List String → ParseState → ParseResult
  | [], st => ParseResult.ok st
  | arg :: rest, st =>
    if arg = jsonFlag then
      match rest with
      | [] => ParseResult.bailed cannotReadJsonMsg
      | fname :: rest2 =>
        match env.files fname with
        | none => ParseResult.bailed cannotReadJsonMsg
        | some content =>
          parseArgs env rest2 { st with annotations_json := some content }
    else if arg = urlFlag then
      match rest with
      | [] => ParseResult.bailed missingUrlMsg
      | v :: rest2 => parseArgs env rest2 { st with service_url := v }
    else if arg = authorFlag then
      match rest with
      | [] => ParseResult.bailed missingAuthorMsg
      | v :: rest2 => parseArgs env rest2 { st with author := v }
    else if arg = initialsFlag then
      match rest with
      | [] => ParseResult.bailed missingInitialsMsg
      | v :: rest2 => parseArgs env rest2 { st with initials := v }
    else if arg = helpFlag ∨ arg = hFlag then
      ParseResult.helped
    else
      parseArgs env rest { st with positional := st.positional ++ [arg] }

/-- Lines 109-110: the third positional argument supplies the
annotations JSON only when --json did not. -/
def resolveAnnotations (st : ParseState) : Option String :=
  match st.annotations_json with
  | some s => some s
  | none => st.positional[2]?

/- ── Result constructors ───────────────────────────────────── -/

/-- bail(msg): print a single JSON object and exit 1; the file state at
the output path and the request record are those at the point of the
call. -/
def bailResultF (req : Option HttpRequest) (ofile : Option (List Nat)) (msg : Json) : RunResult :=
  { term := Termination.exited 1
  , printed := [Output.jsonOut (Json.jobj [(okKey, Json.jbool false), (errorKey, msg)])]
  , outFile := ofile
  , request := req }

/-- bail before the output file was touched. -/
def bailResult (req : Option HttpRequest) (msg : Json) : RunResult :=
  bailResultF req none msg

/-- An uncaught Python exception: traceback, nothing on stdout. -/
def crashResult (req : Option HttpRequest) (ofile : Option (List Nat)) (e : PyExc) : RunResult :=
  { term := Termination.crashed e
  , printed := []
  , outFile := ofile
  , request := req }

/-- The --help path: print usage text, exit 0. -/
def helpResult : RunResult :=
  { term := Termination.exited 0
  , printed := [Output.helpText]
  , outFile := none
  , request := none }

/-- The 422-with-errors path (lines 161-167): print the structured
semantic failure and exit 2. -/
def semFailResult (req : HttpRequest) (l : List Json) : RunResult :=
  { term := Termination.exited 2
  , printed := [Output.jsonOut (Json.jobj
      [(okKey, Json.jbool false), (errorKey, Json.jstr semFailMsg), (errorsKey, Json.jarr l)])]
  , outFile := none
  , request := some req }

/-- The success path end state (lines 179-180). -/
def okResult (req : HttpRequest) (outPath : String) (bs : List Nat) : RunResult :=
  { term := Termination.exited 0
  , printed := [Output.jsonOut (Json.jobj [(okKey, Json.jbool true), (outputKey, Json.jstr outPath)])]
  , outFile := some bs
  , request := some req }

/- ── Response handling ─────────────────────────────────────── -/

/-- Line 161: status == 422 and isinstance(err, dict) and
isinstance(err.get(errors key), list); returns the errors list when the
condition holds. -/
def semanticErrors (status : Nat) (err : Json) : Option (List Json) :=
  if status = 422 then
    match err with
    | Json.jobj fs =>
      match jlookup errorsKey fs with
      | some (Json.jarr l) => some l
      | _ => none
    | _ => none
  else none

/-- Lines 153-169: the non-200 branch.  resp.json() failing is caught
and bails with the truncated raw text.  The 422-with-errors case exits
2.  Otherwise the script calls err.get on the parsed body: when that
body is not a dict, the attribute lookup raises an uncaught
AttributeError. -/
def errorPath (req : HttpRequest) (resp : HttpResponse) : RunResult :=
  match resp.jsonBody with
  | none => bailResult (some req) (Json.jstr (truncate500 resp.text))
  | some err =>
    match semanticErrors resp.status err with
    | some l => semFailResult req l
    | none =>
      match err with
      | Json.jobj fs =>
          bailResult (some req) (jgetD fs errorKey (Json.jstr (truncate500 resp.text)))
      | _ => crashResult (some req) none PyExc.attributeError

/-- Lines 171-183: the 200 branch.  resp.json() failing is caught
(bail, no file).  open(out, wb) runs before the file field is read and
decoded, so from that point on a (possibly empty) file exists at the
output path: a missing file key raises KeyError (caught, bail with the
empty file left behind), a non-string file value raises an uncaught
TypeError, a string that base64 cannot decode raises binascii.Error, a
ValueError subclass (caught, bail with the empty file left behind). -/
def successPath (env : Env) (op : String) (req : HttpRequest) (resp : HttpResponse) : RunResult :=
  match resp.jsonBody with
  | none => bailResult (some req) (Json.jstr unexpectedMsg)
  | some envl =>
    if env.openWriteOk then
      match envl with
      | Json.jobj fs =>
        match jlookup fileKey fs with
        | none => bailResultF (some req) (some []) (Json.jstr unexpectedMsg)
        | some (Json.jstr s) =>
          match env.b64decode s with
          | some bs => okResult req (env.abspath op) bs
          | none => bailResultF (some req) (some []) (Json.jstr unexpectedMsg)
        | some _ => crashResult (some req) (some []) PyExc.typeError
      | _ => crashResult (some req) (some []) PyExc.typeError
    else bailResult (some req) (Json.jstr unexpectedMsg)

/- ── Request building and the main flow ────────────────────── -/

/-- Lines 134-147: the request the script sends. -/
def mkRequest (st : ParseState) (ip : String) (fileBytes : List Nat) (anns : List Json) : HttpRequest :=
  { url := rstripSlash st.service_url ++ apiPath
  , fileName := basename ip
  , fileBytes := fileBytes
  , mime := docxMime
  , requestField := Json.jobj
      [(authorKey, Json.jstr st.author), (initialsKey, Json.jstr st.initials),
       (annotationsKey, Json.jarr anns)]
  , accept := acceptJsonHeader
  , timeoutSecs := 120 }

/-- Lines 125-183: read the input file, send the POST, handle the
response. -/
def readAndSend (env : Env) (st : ParseState) (ip op : String) (anns : List Json) : RunResult :=
  match env.binFiles (env.abspath ip) with
  | none => bailResult none (Json.jstr readErrMsg)
  | some fileBytes =>
    match env.httpResult with
    | none =>
        bailResult (some (mkRequest st ip fileBytes anns)) (Json.jstr (connectMsg st.service_url))
    | some resp =>
      if resp.status ≠ 200 then errorPath (mkRequest st ip fileBytes anns) resp
      else successPath env op (mkRequest st ip fileBytes anns) resp

/-- Lines 115-121: json.loads on the annotations text must yield a
list, else bail before any file read or network call. -/
def withAnnotations (env : Env) (st : ParseState) (ip op a : String) : RunResult :=
  match env.jloads a with
  | some (Json.jarr anns) => readAndSend env st ip op anns
  | some _ => bailResult none (Json.jstr invalidJsonMsg)
  | none => bailResult none (Json.jstr invalidJsonMsg)

/-- Lines 107-121: resolve the three required arguments (an absent or
empty string is falsy and triggers the usage bail), then validate the
annotations JSON. -/
def afterParse (env : Env) (st : ParseState) : RunResult :=
  match st.positional[0]?, st.positional[1]?, resolveAnnotations st with
  | some ip, some op, some a =>
    if ip = emptyStr ∨ op = emptyStr ∨ a = emptyStr then
      bailResult none (Json.jstr usageMsg)
    else withAnnotations env st ip op a
  | _, _, _ => bailResult none (Json.jstr usageMsg)

/-- The whole script, from sys.argv to process exit. -/
def run (env : Env) (args : List String) : RunResult :=
  match parseArgs env args initState with
  | ParseResult.helped => helpResult
  | ParseResult.bailed msg => bailResult none (Json.jstr msg)
  | ParseResult.ok st => afterParse env st

/-- The annotations text a successful parse leaves for validation. -/
def annotationsUsed (env : Env) (args : List String) : Option String :=
  match parseArgs env args initState with
  | ParseResult.ok st => resolveAnnotations st
  | _ => none

/- ── Concrete fixtures used by the witnesses below ─────────── -/

def inPath : String := "in.docx"
def outPath : String := "out.docx"
def annText : String := "[]"
def objText : String := "\x7b\x7d"
def badText : String := "not json"
def b64Text : String := "QUJD"
def abcBytes : List Nat := [65, 66, 67]
def inBytes : List Nat := [1, 2, 3]
def jsonFileName : String := "anns.json"
def slashUrl : String := "http://x/"

/-- json.loads on the fixture strings: the empty array for annText, the
empty object for objText, a parse failure for everything else. -/
def testJloads : String → Option Json := fun s =>
  if s = annText then some (Json.jarr [])
  else if s = objText then some (Json.jobj [])
  else none

/-- base64.b64decode on the fixture strings: b64Text decodes to the
bytes of ABC, everything else raises. -/
def testB64 : String → Option (List Nat) := fun s =>
  if s = b64Text then some abcBytes else none

/-- A world in which the input document exists, anns.json holds the
empty annotations array, and the service answers with the given
response. -/
def mkEnv (resp : Option HttpResponse) : Env :=
  { files := fun p => if p = jsonFileName then some annText else none
  , binFiles := fun p => if p = inPath then some inBytes else none
  , jloads := testJloads
  , b64decode := testB64
  , abspath := fun s => s
  , httpResult := resp
  , openWriteOk := true }

def baseArgs : List String := [inPath, outPath, annText]

def resp200ok : HttpResponse :=
  { status := 200, text := objText
  , jsonBody := some (Json.jobj [(fileKey, Json.jstr b64Text)]) }

def resp200nofile : HttpResponse :=
  { status := 200, text := objText, jsonBody := some (Json.jobj []) }

def resp500list : HttpResponse :=
  { status := 500, text := annText, jsonBody := some (Json.jarr []) }

def resp500str : HttpResponse :=
  { status := 500, text := "oops", jsonBody := some (Json.jstr "oops") }

def resp422 : HttpResponse :=
  { status := 422, text := objText
  , jsonBody := some (Json.jobj [(errorsKey, Json.jarr [Json.jstr "no match"])]) }

/- ── Shared helper lemmas ──────────────────────────────────── -/

/-- Every arm of the non-200 branch records the request that was sent. -/
theorem errorPath_request (req : HttpRequest) (resp : HttpResponse) :
    (errorPath req resp).request = some req := by
  unfold errorPath
  repeat' split
  all_goals rfl

/-- Every arm of the 200 branch records the request that was sent. -/
theorem successPath_request (env : Env) (op : String) (req : HttpRequest) (resp : HttpResponse) :
    (successPath env op req resp).request = some req := by
  unfold successPath
  repeat' split
  all_goals rfl

/-- When parsing succeeds, the three required arguments are present and
nonempty, the annotations parse to a list, the input file is readable
and the service responds, the run is the response branch applied to the
request the script builds. -/
theorem run_response_phase
    (env : Env) (args : List String) (st : ParseState) (ip op a : String)
    (anns : List Json) (fb : List Nat) (resp : HttpResponse)
    (h1 : parseArgs env args initState = ParseResult.ok st)
    (h2 : st.positional[0]? = some ip) (h3 : st.positional[1]? = some op)
    (h4 : resolveAnnotations st = some a)
    (h5 : ip ≠ emptyStr) (h6 : op ≠ emptyStr) (h7 : a ≠ emptyStr)
    (h8 : env.jloads a = some (Json.jarr anns))
    (h9 : env.binFiles (env.abspath ip) = some fb)
    (h10 : env.httpResult = some resp) :
    run env args =
      if resp.status ≠ 200 then errorPath (mkRequest st ip fb anns) resp
      else successPath env op (mkRequest st ip fb anns) resp := by
  unfold run
  simp only [h1]
  unfold afterParse
  simp only [h2, h3, h4]
  rw [if_neg (by simp [h5, h6, h7])]
  unfold withAnnotations
  simp only [h8]
  unfold readAndSend
  simp only [h9, h10]

/-- C3: for all valid arguments and a 200 response whose JSON body
contains a valid base64 file field, the tool writes exactly the
base64-decoded bytes of that field to the output path and exits with
code 0. -/
theorem success_writes_decoded_bytes
    (env : Env) (args : List String) (st : ParseState) (ip op a : String)
    (anns : List Json) (fb : List Nat) (resp : HttpResponse)
    (fs : List (String × Json)) (s : String) (bs : List Nat)
    (h1 : parseArgs env args initState = ParseResult.ok st)
    (h2 : st.positional[0]? = some ip) (h3 : st.positional[1]? = some op)
    (h4 : resolveAnnotations st = some a)
    (h5 : ip ≠ emptyStr) (h6 : op ≠ emptyStr) (h7 : a ≠ emptyStr)
    (h8 : env.jloads a = some (Json.jarr anns))
    (h9 : env.binFiles (env.abspath ip) = some fb)
    (h10 : env.httpResult = some resp)
    (h11 : resp.status = 200)
    (h12 : resp.jsonBody = some (Json.jobj fs))
    (h13 : jlookup fileKey fs = some (Json.jstr s))
    (h14 : env.b64decode s = some bs)
    (h15 : env.openWriteOk = true) :
    (run env args).term = Termination.exited 0 ∧
    (run env args).outFile = some bs ∧
    (run env args).printed = [Output.jsonOut (Json.jobj
      [(okKey, Json.jbool true), (outputKey, Json.jstr (env.abspath op))])] := by
  have hr := run_response_phase env args st ip op a anns fb resp h1 h2 h3 h4 h5 h6 h7 h8 h9 h10
  rw [hr, if_neg (show ¬ resp.status ≠ 200 by simp [h11])]
  unfold successPath
  simp [h12, h13, h14, h15, okResult]

/-- The state the parsing loop computes on the basic three-argument
command line. -/
def stBase : ParseState :=
  { annotations_json := none
  , service_url := defaultUrl
  , author := defaultAuthor
  , initials := defaultInitials
  , positional := baseArgs }

/-- C3 witness: a concrete run in which the service answers 200 with
the base64 of the bytes of ABC, and the tool writes exactly those bytes
and exits 0. -/
theorem success_writes_decoded_bytes_witness :
    (run (mkEnv (some resp200ok)) baseArgs).term = Termination.exited 0 ∧
    (run (mkEnv (some resp200ok)) baseArgs).outFile = some abcBytes ∧
    (run (mkEnv (some resp200ok)) baseArgs).printed = [Output.jsonOut (Json.jobj
      [(okKey, Json.jbool true), (outputKey, Json.jstr ((mkEnv (some resp200ok)).abspath outPath))])] :=
  success_writes_decoded_bytes (mkEnv (some resp200ok)) baseArgs stBase
    inPath outPath annText [] inBytes resp200ok
    [(fileKey, Json.jstr b64Text)] b64Text abcBytes
    rfl rfl rfl rfl (by decide) (by decide) (by decide)
    rfl rfl rfl rfl rfl rfl rfl rfl

/-- C4: a 422 response whose JSON body is an object with an errors list
makes the tool exit exactly 2, write no output file, and print a JSON
object carrying that errors list unmodified. -/
theorem semantic_failure_exits_two
    (env : Env) (args : List String) (st : ParseState) (ip op a : String)
    (anns : List Json) (fb : List Nat) (resp : HttpResponse)
    (fs : List (String × Json)) (l : List Json)
    (h1 : parseArgs env args initState = ParseResult.ok st)
    (h2 : st.positional[0]? = some ip) (h3 : st.positional[1]? = some op)
    (h4 : resolveAnnotations st = some a)
    (h5 : ip ≠ emptyStr) (h6 : op ≠ emptyStr) (h7 : a ≠ emptyStr)
    (h8 : env.jloads a = some (Json.jarr anns))
    (h9 : env.binFiles (env.abspath ip) = some fb)
    (h10 : env.httpResult = some resp)
    (h11 : resp.status = 422)
    (h12 : resp.jsonBody = some (Json.jobj fs))
    (h13 : jlookup errorsKey fs = some (Json.jarr l)) :
    (run env args).term = Termination.exited 2 ∧
    (run env args).outFile = none ∧
    (run env args).printed = [Output.jsonOut (Json.jobj
      [(okKey, Json.jbool false), (errorKey, Json.jstr semFailMsg), (errorsKey, Json.jarr l)])] := by
  have hr := run_response_phase env args st ip op a anns fb resp h1 h2 h3 h4 h5 h6 h7 h8 h9 h10
  rw [hr, if_pos (show resp.status ≠ 200 by simp [h11])]
  unfold errorPath
  simp [h12, semanticErrors, h11, h13, semFailResult]

/-- C4 witness: a concrete 422 run with one structured error; the tool
exits 2, leaves no file, and prints the errors list as received. -/
theorem semantic_failure_exits_two_witness :
    (run (mkEnv (some resp422)) baseArgs).term = Termination.exited 2 ∧
    (run (mkEnv (some resp422)) baseArgs).outFile = none ∧
    (run (mkEnv (some resp422)) baseArgs).printed = [Output.jsonOut (Json.jobj
      [(okKey, Json.jbool false), (errorKey, Json.jstr semFailMsg),
       (errorsKey, Json.jarr [Json.jstr "no match"])])] :=
  semantic_failure_exits_two (mkEnv (some resp422)) baseArgs stBase
    inPath outPath annText [] inBytes resp422
    [(errorsKey, Json.jarr [Json.jstr "no match"])] [Json.jstr "no match"]
    rfl rfl rfl rfl (by decide) (by decide) (by decide)
    rfl rfl rfl rfl rfl rfl

/-- A world in which the input document cannot be read. -/
def envNoInput : Env :=
  { mkEnv (some resp200ok) with binFiles := fun _ => none }

/-- C6: when the input file cannot be read the tool bails with the read
error, exits 1, attempts no network call and writes no file. -/
theorem unreadable_input_no_network
    (env : Env) (args : List String) (st : ParseState) (ip op a : String)
    (anns : List Json)
    (h1 : parseArgs env args initState = ParseResult.ok st)
    (h2 : st.positional[0]? = some ip) (h3 : st.positional[1]? = some op)
    (h4 : resolveAnnotations st = some a)
    (h5 : ip ≠ emptyStr) (h6 : op ≠ emptyStr) (h7 : a ≠ emptyStr)
    (h8 : env.jloads a = some (Json.jarr anns))
    (h9 : env.binFiles (env.abspath ip) = none) :
    (run env args).term = Termination.exited 1 ∧
    (run env args).request = none ∧
    (run env args).outFile = none ∧
    (run env args).printed = [Output.jsonOut (Json.jobj
      [(okKey, Json.jbool false), (errorKey, Json.jstr readErrMsg)])] := by
  have hr : run env args = bailResult none (Json.jstr readErrMsg) := by
    unfold run
    simp only [h1]
    unfold afterParse
    simp only [h2, h3, h4]
    rw [if_neg (by simp [h5, h6, h7])]
    unfold withAnnotations
    simp only [h8]
    unfold readAndSend
    simp only [h9]
  rw [hr]
  simp [bailResult, bailResultF]

/-- C6 witness: a concrete run with an unreadable input file bails with
the read error before any network activity. -/
theorem unreadable_input_no_network_witness :
    (run envNoInput baseArgs).term = Termination.exited 1 ∧
    (run envNoInput baseArgs).request = none ∧
    (run envNoInput baseArgs).outFile = none ∧
    (run envNoInput baseArgs).printed = [Output.jsonOut (Json.jobj
      [(okKey, Json.jbool false), (errorKey, Json.jstr readErrMsg)])] :=
  unreadable_input_no_network envNoInput baseArgs stBase
    inPath outPath annText []
    rfl rfl rfl rfl (by decide) (by decide) (by decide) rfl rfl

/-- C5: an annotations input that does not parse as JSON, or parses to
a value that is not a list, makes the tool exit 1 with no network call
and no output file.  The hypothesis covers both cases at once: whatever
json.loads yields for this input is not a list (yielding nothing models
a parse failure). -/
theorem invalid_annotations_no_network
    (env : Env) (args : List String) (st : ParseState) (a : String)
    (h1 : parseArgs env args initState = ParseResult.ok st)
    (h4 : resolveAnnotations st = some a)
    (hbad : ∀ j, env.jloads a = some j → j.isArr = false) :
    (run env args).term = Termination.exited 1 ∧
    (run env args).request = none ∧
    (run env args).outFile = none := by
  unfold run
  simp only [h1]
  unfold afterParse
  simp only [h4]
  cases hp0 : st.positional[0]? with
  | none => simp [bailResult, bailResultF]
  | some ip =>
    cases hp1 : st.positional[1]? with
    | none => simp [bailResult, bailResultF]
    | some op =>
      by_cases hcond : ip = emptyStr ∨ op = emptyStr ∨ a = emptyStr
      · simp only [if_pos hcond]
        simp [bailResult, bailResultF]
      · simp only [if_neg hcond]
        unfold withAnnotations
        cases hj : env.jloads a with
        | none => simp [bailResult, bailResultF]
        | some j =>
          cases j with
          | jarr anns => exact absurd (hbad (Json.jarr anns) hj) (by simp [Json.isArr])
          | jnull => simp [bailResult, bailResultF]
          | jbool b => simp [bailResult, bailResultF]
          | jnum n => simp [bailResult, bailResultF]
          | jstr s2 => simp [bailResult, bailResultF]
          | jobj fs => simp [bailResult, bailResultF]

/-- The state the parsing loop computes when the inline annotations
argument is the text of an empty JSON object. -/
def stObj : ParseState :=
  { annotations_json := none
  , service_url := defaultUrl
  , author := defaultAuthor
  , initials := defaultInitials
  , positional := [inPath, outPath, objText] }

/-- C5 witness: with the inline annotations text parsing to a JSON
object (not an array), the tool exits 1 having touched neither the
network nor the output path. -/
theorem invalid_annotations_no_network_witness :
    (run (mkEnv none) [inPath, outPath, objText]).term = Termination.exited 1 ∧
    (run (mkEnv none) [inPath, outPath, objText]).request = none ∧
    (run (mkEnv none) [inPath, outPath, objText]).outFile = none :=
  invalid_annotations_no_network (mkEnv none) [inPath, outPath, objText] stObj objText
    rfl rfl
    (by
      intro j h
      have h2 : (some (Json.jobj []) : Option Json) = some j := h
      injection h2 with h3
      rw [← h3]
      rfl)

/-- C10: when the resolved annotations argument, the input path or the
output path is present but empty, the tool reports the usage error
(exit 1), not a JSON parse error. -/
theorem empty_args_usage_bail
    (env : Env) (args : List String) (st : ParseState)
    (h1 : parseArgs env args initState = ParseResult.ok st)
    (h2 : resolveAnnotations st = some emptyStr ∨
          st.positional[0]? = some emptyStr ∨
          st.positional[1]? = some emptyStr) :
    run env args = bailResult none (Json.jstr usageMsg) := by
  unfold run
  simp only [h1]
  unfold afterParse
  cases hp0 : st.positional[0]? with
  | none => cases hra : resolveAnnotations st <;> rfl
  | some ip =>
    cases hp1 : st.positional[1]? with
    | none => cases hra : resolveAnnotations st <;> rfl
    | some op =>
      cases hra : resolveAnnotations st with
      | none => rfl
      | some a =>
        have hcond : ip = emptyStr ∨ op = emptyStr ∨ a = emptyStr := by
          rcases h2 with h | h | h
          · rw [hra] at h
            exact Or.inr (Or.inr (Option.some.inj h))
          · rw [hp0] at h
            exact Or.inl (Option.some.inj h)
          · rw [hp1] at h
            exact Or.inr (Or.inl (Option.some.inj h))
        simp only [if_pos hcond]

/-- C10 witness: an empty third positional argument triggers the usage
bail. -/
theorem empty_args_usage_bail_witness :
    run (mkEnv none) [inPath, outPath, emptyStr] = bailResult none (Json.jstr usageMsg) :=
  empty_args_usage_bail (mkEnv none) [inPath, outPath, emptyStr]
    { annotations_json := none
    , service_url := defaultUrl
    , author := defaultAuthor
    , initials := defaultInitials
    , positional := [inPath, outPath, emptyStr] }
    rfl (Or.inl rfl)

/-- C8: whatever service URL the parse produced (--url or the default),
any request the run attempts targets that URL with all trailing slashes
stripped, followed by the fixed API path, so a URL ending in a slash
yields no double slash. -/
theorem request_url_no_double_slash
    (env : Env) (args : List String) (st : ParseState) (r : HttpRequest)
    (h1 : parseArgs env args initState = ParseResult.ok st)
    (h2 : (run env args).request = some r) :
    r.url = rstripSlash st.service_url ++ apiPath := by
  unfold run at h2
  simp only [h1] at h2
  unfold afterParse at h2
  split at h2
  · split at h2
    · simp [bailResult, bailResultF] at h2
    · unfold withAnnotations at h2
      split at h2
      · unfold readAndSend at h2
        split at h2
        · simp [bailResult, bailResultF] at h2
        · split at h2
          · simp [bailResult, bailResultF] at h2
            rw [← h2]
            rfl
          · split at h2
            · rw [errorPath_request] at h2
              rw [← Option.some.inj h2]
              rfl
            · rw [successPath_request] at h2
              rw [← Option.some.inj h2]
              rfl
      · simp [bailResult, bailResultF] at h2
      · simp [bailResult, bailResultF] at h2
  · simp [bailResult, bailResultF] at h2

/-- The state the parsing loop computes when --url passes a URL with a
trailing slash. -/
def stSlash : ParseState :=
  { annotations_json := none
  , service_url := slashUrl
  , author := defaultAuthor
  , initials := defaultInitials
  , positional := baseArgs }

/-- C8 witness: with --url passing a slash-terminated URL, the attempted
request targets the stripped URL plus the API path, concretely with no
double slash. -/
theorem request_url_no_double_slash_witness :
    (mkRequest stSlash inPath inBytes []).url = rstripSlash stSlash.service_url ++ apiPath ∧
    (mkRequest stSlash inPath inBytes []).url = "http://x/api/annotate" :=
  ⟨request_url_no_double_slash (mkEnv none) [inPath, outPath, annText, urlFlag, slashUrl]
      stSlash (mkRequest stSlash inPath inBytes []) rfl rfl
  , rfl⟩

/-- The string is none of the option flags the parsing loop
recognizes. -/
@[reducible] def notFlag (s : String) : Prop :=
  s ≠ jsonFlag ∧ s ≠ urlFlag ∧ s ≠ authorFlag ∧ s ≠ initialsFlag ∧ s ≠ helpFlag ∧ s ≠ hFlag

/-- Only the --json option ever assigns annotations_json in the parsing
loop: when --json does not occur among the arguments, a successful
parse leaves annotations_json as it started. -/
theorem parseArgs_keeps_aj (env : Env) :
    ∀ (n : Nat) (args : List String) (st st2 : ParseState), args.length ≤ n →
      jsonFlag ∉ args → parseArgs env args st = ParseResult.ok st2 →
      st2.annotations_json = st.annotations_json := by
  intro n
  induction n with
  | zero =>
    intro args st st2 hlen hmem hp
    cases args with
    | nil =>
      simp only [parseArgs] at hp
      injection hp with h
      rw [← h]
    | cons arg rest => simp at hlen
  | succ n ih =>
    intro args st st2 hlen hmem hp
    cases args with
    | nil =>
      simp only [parseArgs] at hp
      injection hp with h
      rw [← h]
    | cons arg rest =>
      rw [List.mem_cons] at hmem
      push_neg at hmem
      obtain ⟨hne, hrest⟩ := hmem
      simp only [List.length_cons] at hlen
      rw [parseArgs.eq_def] at hp
      dsimp only at hp
      rw [if_neg (Ne.symm hne)] at hp
      by_cases hu : arg = urlFlag
      · rw [if_pos hu] at hp
        cases rest with
        | nil => simp at hp
        | cons v rest2 =>
          dsimp only at hp
          have h1 : rest2.length ≤ n := by simp at hlen; omega
          have h2 : jsonFlag ∉ rest2 := fun hx => hrest (List.mem_cons_of_mem v hx)
          exact ih rest2 { st with service_url := v } st2 h1 h2 hp
      · rw [if_neg hu] at hp
        by_cases ha : arg = authorFlag
        · rw [if_pos ha] at hp
          cases rest with
          | nil => simp at hp
          | cons v rest2 =>
            dsimp only at hp
            have h1 : rest2.length ≤ n := by simp at hlen; omega
            have h2 : jsonFlag ∉ rest2 := fun hx => hrest (List.mem_cons_of_mem v hx)
            exact ih rest2 { st with author := v } st2 h1 h2 hp
        · rw [if_neg ha] at hp
          by_cases hi2 : arg = initialsFlag
          · rw [if_pos hi2] at hp
            cases rest with
            | nil => simp at hp
            | cons v rest2 =>
              dsimp only at hp
              have h1 : rest2.length ≤ n := by simp at hlen; omega
              have h2 : jsonFlag ∉ rest2 := fun hx => hrest (List.mem_cons_of_mem v hx)
              exact ih rest2 { st with initials := v } st2 h1 h2 hp
          · rw [if_neg hi2] at hp
            by_cases hh : arg = helpFlag ∨ arg = hFlag
            · rw [if_pos hh] at hp
              exact ParseResult.noConfusion hp
            · rw [if_neg hh] at hp
              have h1 : rest.length ≤ n := by omega
              exact ih rest { st with positional := st.positional ++ [arg] } st2 h1 hrest hp

/-- C9: --json wins over the third positional argument.  First part:
when both a --json file and an inline third positional argument are
supplied, in either order on the command line, the annotations text
used is the content read from the --json file.  Second part: the third
positional argument is the fallback exactly when --json never
occurred. -/
theorem json_flag_precedence :
    (∀ (env : Env) (ip op inl fn c : String),
      notFlag ip → notFlag op → notFlag inl →
      env.files fn = some c →
      annotationsUsed env [ip, op, inl, jsonFlag, fn] = some c ∧
      annotationsUsed env [ip, op, jsonFlag, fn, inl] = some c) ∧
    (∀ (env : Env) (args : List String) (st : ParseState),
      jsonFlag ∉ args → parseArgs env args initState = ParseResult.ok st →
      resolveAnnotations st = st.positional[2]?) := by
  constructor
  · intro env ip op inl fn c hip hop hinl hc
    obtain ⟨i1, i2, i3, i4, i5, i6⟩ := hip
    obtain ⟨o1, o2, o3, o4, o5, o6⟩ := hop
    obtain ⟨l1, l2, l3, l4, l5, l6⟩ := hinl
    constructor
    · unfold annotationsUsed
      simp [parseArgs, resolveAnnotations, i1, i2, i3, i4, i5, i6,
        o1, o2, o3, o4, o5, o6, l1, l2, l3, l4, l5, l6, hc]
    · unfold annotationsUsed
      simp [parseArgs, resolveAnnotations, i1, i2, i3, i4, i5, i6,
        o1, o2, o3, o4, o5, o6, l1, l2, l3, l4, l5, l6, hc]
  · intro env args st hmem hp
    have haj := parseArgs_keeps_aj env args.length args initState st (le_refl _) hmem hp
    unfold resolveAnnotations
    rw [haj]
    rfl

/-- C9 witness: with both an inline object-text argument and a --json
file containing the empty array, either argument order ends with the
file content as the annotations text; and on a --json-free command line
the third positional argument is the fallback. -/
theorem json_flag_precedence_witness :
    (annotationsUsed (mkEnv none) [inPath, outPath, objText, jsonFlag, jsonFileName] = some annText ∧
     annotationsUsed (mkEnv none) [inPath, outPath, jsonFlag, jsonFileName, objText] = some annText) ∧
    resolveAnnotations stObj = stObj.positional[2]? :=
  ⟨json_flag_precedence.1 (mkEnv none) inPath outPath objText jsonFileName annText
      (by decide) (by decide) (by decide) rfl
  , json_flag_precedence.2 (mkEnv none) [inPath, outPath, objText] stObj (by decide) rfl⟩

/-- C1: counter to the no-partial-output property.  On a 200 response
whose JSON body is an object without a file field, the script has
already opened the output path for writing (creating or truncating the
file) before the KeyError is raised, so this failure path (exit 1)
leaves an empty file at the destination. -/
theorem partial_file_left_on_bad_success_body :
    (run (mkEnv (some resp200nofile)) baseArgs).term = Termination.exited 1 ∧
    (run (mkEnv (some resp200nofile)) baseArgs).outFile = some [] ∧
    (run (mkEnv (some resp200nofile)) baseArgs).printed = [Output.jsonOut (Json.jobj
      [(okKey, Json.jbool false), (errorKey, Json.jstr unexpectedMsg)])] :=
  ⟨rfl, rfl, rfl⟩

/-- C2: counter to the never-crashes property.  On a 500 response whose
body is valid JSON but not an object (here the empty array), the script
reaches err.get on a list and raises an uncaught AttributeError: the
run ends in a crash with nothing printed to standard output. -/
theorem crash_on_list_error_body :
    (run (mkEnv (some resp500list)) baseArgs).term = Termination.crashed PyExc.attributeError ∧
    (run (mkEnv (some resp500list)) baseArgs).printed = [] :=
  ⟨rfl, rfl⟩

/-- C7: counter to the non-200 fallback property.  On a 500 response
whose body is the JSON string oops, the fallback branch calls err.get
on a string and raises an uncaught AttributeError instead of exiting 1
with the error field or the truncated text. -/
theorem crash_on_string_error_body :
    (run (mkEnv (some resp500str)) baseArgs).term = Termination.crashed PyExc.attributeError ∧
    (run (mkEnv (some resp500str)) baseArgs).printed = [] :=
  ⟨rfl, rfl⟩
